import Mathlib

/-!
Verification of the telekinesis-compute pod fleet manager
(`telekinesis_compute/manager.py`, `telekinesis_compute/script_base.py`).

The Python code is shallowly embedded as pure Lean functions:

* `time.time()` values, deadlines and CPU percentages are rationals;
* Python dictionaries whose keys are strings are embedded as total
  functions `String → α` with a default value (a missing key reads as the
  default), matching `dict.get(k, default)` semantics used by the code;
* `asyncio` tasks are represented by the data the manager keeps about
  them (the recorded handle plus a ghost counter of tasks ever spawned),
  and each `async` step of the code becomes one atomic Lean transition —
  the code never awaits between the mutations a single transition models;
* fallible code (uncaught `KeyError` / `TypeError`) returns `Except`.
-/

/-- A package dependency, as accepted by the manager: either a plain pip
name, or a `(pip-name, import-name)` pair. -/
inductive Dep where
  | str (s : String)
  | pair (pip imp : String)
deriving DecidableEq, Repr

/-- The pip-name component of a dependency:
`d if isinstance(d, str) else d[0]`. -/
def depPip : Dep → String
  | Dep.str s => s
  | Dep.pair p _ => p

/-- The image tag computed at manager.py lines 70, 91, 152 and 183:
`'-'.join(['tk', base, *[d if isinstance(d, str) else d[0] for d in pkg_dependencies]])`.
It is the Pool Registry key. -/
def image_tag (base : String) (pkg_dependencies : List Dep) : String :=
  String.intercalate "-" ("tk" :: base :: pkg_dependencies.map depPip)

/-! ## Fleet manager state (`AppManager`)

Only the location bookkeeping matters for the manager-level claims:
`self.ready` maps an image tag to the list of ready pod ids (the pool),
`self.running` maps an account id to the ids of the pods leased to it
(the Python code keys the inner dict by `pod_wrapper.id`).  A missing
dictionary key reads as the empty list, matching `self.ready.get(tag)` /
`self.running.get(account_id, {})`. -/

structure ManagerState where
  ready : String → List String
  running : String → List String

/-- Pointwise update of a string-keyed embedded dictionary. -/
def fset (m : String → List String) (k : String) (v : List String) :
    String → List String :=
  fun q => if q = k then v else m q

/-- `AppManager.provision` (manager.py lines 181-192), restricted to its
pool-registry effect: ensure an entry for the tag exists and extend it
with the ids of the freshly started containers
(`self.ready[tag].extend(await asyncio.gather(...))`). -/
def provision_core (st : ManagerState) (tag : String) (fresh : List String) :
    ManagerState :=
  { st with ready := fset st.ready tag (st.ready tag ++ fresh) }

/-- The pop-and-lease step of `AppManager.get_pod` (manager.py lines
156-158): `pod_wrapper = self.ready[tag].pop()` (Python `list.pop()`
removes and returns the LAST element) followed by
`self.running[account_id] = {**self.running.get(account_id, {}), pod_wrapper.id: pod_wrapper}`
(an existing key keeps its position, a new key is appended).
Returns `none` when the ready list is empty (`pop` would raise). -/
def get_pod_pop (st : ManagerState) (tag account : String) :
    Option (String × ManagerState) :=
  match (st.ready tag).getLast? with
  | none => none
  | some pid =>
    let lease := st.running account
    some (pid,
      { ready := fset st.ready tag (st.ready tag).dropLast,
        running := fset st.running account
          (if pid ∈ lease then lease else lease ++ [pid]) })

/-- `AppManager.get_pod` (manager.py lines 148-179), restricted to its
location bookkeeping: `if not self.ready.get(tag): await self.provision(1, ...)`
then pop one ready handle and record it in the lease table.  `fresh`
stands for the ids of the pods the synchronous provisioning call would
start. -/
def get_pod (st : ManagerState) (tag account : String) (fresh : List String) :
    Option (String × ManagerState) :=
  let st1 := if st.ready tag = [] then provision_core st tag fresh else st
  get_pod_pop st1 tag account

/-- The at-most-one-location well-formedness of the manager state: ready
lists and lease lists are duplicate-free, no id is both ready and leased,
no id is ready under two tags, and no id is leased to two accounts. -/
def LocInv (st : ManagerState) : Prop :=
  (∀ t, (st.ready t).Nodup) ∧
  (∀ a, (st.running a).Nodup) ∧
  (∀ i t a, i ∈ st.ready t → i ∉ st.running a) ∧
  (∀ i t u, i ∈ st.ready t → i ∈ st.ready u → t = u) ∧
  (∀ i a b, i ∈ st.running a → i ∈ st.running b → a = b)

/-- `AppManager.stop` (manager.py lines 194-199):
`p = self.running.get(account_id, {}).pop(pod_id)` — `dict.pop` is called
WITHOUT a default, so a missing `pod_id` raises `KeyError` (embedded as
`Except.error`).  On success the result carries the new state and whether
a stop-callback task was scheduled (`p` is always a truthy `PodWrapper`,
so `if p and callback` reduces to `callback`; the `elif callback:
print(pod_id, 'not found')` branch is unreachable). -/
def manager_stop (st : ManagerState) (account pod_id : String)
    (callback : Bool) : Except Unit (ManagerState × Bool) :=
  if pod_id ∈ st.running account then
    Except.ok
      ({ st with running := fset st.running account ((st.running account).erase pod_id) },
       callback)
  else
    Except.error ()

/-! ## Reconciliation loop (`AppManager.loop_check_running`)

manager.py lines 213-219:
```
while True:
    # try:
        await asyncio.sleep(15)
        await self.check_running()
    # except BaseException:
        # pass
```
The `try`/`except` is COMMENTED OUT, so an exception raised by a tick
(`check_running`'s runtime query or anything it awaits) propagates out of
the `while` body and terminates the loop task.  The loop is embedded as a
function of the sequence of tick outcomes: it returns the number of ticks
processed, or the first uncontained error. -/

def loop_check_running (ticks : List (Except Unit Unit)) : Except Unit Nat :=
  match ticks with
  | [] => Except.ok 0
  | t :: rest =>
    match t with
    | Except.ok _ =>
      match loop_check_running rest with
      | Except.ok n => Except.ok (n + 1)
      | Except.error e => Except.error e
    | Except.error e => Except.error e

/-! ## Delayed replacement provisioning (`get_pod`, manager.py lines 171-177)

```
async def delayed_provisioning(t):
    await asyncio.sleep(1)
    await self.provision(1, base, pkg_dependencies, base, cpus, memory, gpu, upgrade)
    self.tasks['delayed_provisioning'].pop(t)
```
`provision` is `async def provision(self, number, pkg_dependencies, base,
cpus, memory, gpu, upgrade)` — seven parameters besides `self` — but the
call above passes EIGHT positional arguments (`base` is inserted before
`pkg_dependencies`), so Python raises `TypeError` when the task runs; the
`pop` is not in a `finally`, so it never executes. -/

/-- A Python value, as far as the provisioning call needs. -/
inductive PyVal where
  | int (n : Nat)
  | str (s : String)
  | deps (d : List Dep)
  | rat (q : ℚ)
  | bool (b : Bool)
deriving DecidableEq

/-- Number of positional parameters of `AppManager.provision` after
`self` (manager.py line 181). -/
def provisionParamCount : Nat := 7

/-- Python's positional-argument binding for `provision`: a call with a
number of arguments other than the parameter count raises `TypeError`. -/
def bindProvisionArgs (args : List PyVal) : Except String (List PyVal) :=
  if args.length = provisionParamCount then Except.ok args
  else Except.error "TypeError"

/-- The positional arguments built at manager.py line 175:
`self.provision(1, base, pkg_dependencies, base, cpus, memory, gpu, upgrade)`. -/
def delayedProvisionArgs (pkg_dependencies : List Dep) (base : String)
    (cpus memory : ℚ) (gpu upgrade : Bool) : List PyVal :=
  [PyVal.int 1, PyVal.str base, PyVal.deps pkg_dependencies, PyVal.str base,
   PyVal.rat cpus, PyVal.rat memory, PyVal.bool gpu, PyVal.bool upgrade]

/-- The body of `delayed_provisioning(t)` after its sleep: call
`provision` with the given arguments, then
`self.tasks['delayed_provisioning'].pop(t)`.  `pending` is the key set of
`self.tasks['delayed_provisioning']`; an exception from the call
propagates and the pop never runs. -/
def delayed_provisioning (pending : List ℚ) (t : ℚ) (args : List PyVal) :
    Except String (List ℚ) :=
  match bindProvisionArgs args with
  | Except.error e => Except.error e
  | Except.ok _ => Except.ok (pending.erase t)

/-! ## Pod handle (`PodWrapper`) -/

/-- The autostop-relevant state of one `PodWrapper` (manager.py lines
221-273).  `stop_callback` records whether a callback closure is
installed (`None` vs. set); `autostop_task` records the task handle the
wrapper keeps (`None` vs. a task, identified by a ghost id); `spawned` is
a ghost count of timer tasks ever created with `asyncio.create_task`;
`filesync` is `none` for `None`, `some b` for a `FileSync` object whose
`.task` attribute has truthiness `b`. -/
structure PodWrapper where
  container_id : String
  stop_callback : Bool
  autostop_timeout : Option ℚ
  autostop_time : ℚ
  autostop_task : Option Nat
  spawned : Nat
  filesync : Option Bool
deriving DecidableEq

/-- `PodWrapper.reset_timeout` (manager.py lines 233-238):
```
if self.autostop_timeout is not None:
    self.autostop_time = time.time() + self.autostop_timeout
    if self.autostop_task is None:
        self.autostop_task = asyncio.create_task(self.autostop(self.autostop_timeout))
```
`now` is the value `time.time()` returns during the call. -/
def reset_timeout (st : PodWrapper) (now : ℚ) : PodWrapper :=
  match st.autostop_timeout with
  | none => st
  | some timeout =>
    let st1 := { st with autostop_time := now + timeout }
    match st1.autostop_task with
    | some _ => st1
    | none => { st1 with autostop_task := some st1.spawned, spawned := st1.spawned + 1 }

/-- What one wake of the autostop timer does. -/
inductive AutostopAct where
  | stop (stop_pod : Bool)
  | rearm (delay : ℚ)
deriving DecidableEq

/-- The decision taken by `PodWrapper.autostop` after its sleep
(manager.py lines 242-254):
```
if self.autostop_time and self.autostop_time < time.time():
    cpu_utilization = ...
    if cpu_utilization < 1: # 1%
        await self.stop()
    else:
        self.autostop_task = asyncio.create_task(self.autostop(max(2, self.autostop_timeout)))
else:
    self.autostop_task = asyncio.create_task(self.autostop(max(2, self.autostop_time-time.time())))
```
`now` is the wake time, `cpu` the percentage the stats query returns.
`await self.stop()` uses the default `stop_pod=True`.  In the extension
branch a `None` timeout would make `max(2, None)` raise `TypeError`,
embedded as `none`. -/
def autostop_wake (st : PodWrapper) (now cpu : ℚ) : Option AutostopAct :=
  if st.autostop_time ≠ 0 ∧ st.autostop_time < now then
    if cpu < 1 then some (AutostopAct.stop true)
    else
      match st.autostop_timeout with
      | some timeout => some (AutostopAct.rearm (max 2 timeout))
      | none => none
  else some (AutostopAct.rearm (max 2 (st.autostop_time - now)))

/-- Counts of the externally visible effects of the teardown path. -/
structure TeardownEffects where
  callback_runs : Nat
  filesync_cancels : Nat
  remote_stop_calls : Nat
deriving DecidableEq

/-- `PodWrapper.stop` (manager.py lines 262-272):
```
if self.stop_callback:
    await self.stop_callback()
if self.filesync and self.filesync.task:
    self.filesync.task.cancel()
if stop_pod:
    try:
        await self.pod.stop()._timeout(5)
    except asyncio.TimeoutError:
        pass
```
The method mutates none of the wrapper's fields (no guard flag is set),
so the returned state is the input state; the effect counters record how
often each hook ran. -/
def pod_stop (st : PodWrapper) (stop_pod : Bool) (eff : TeardownEffects) :
    PodWrapper × TeardownEffects :=
  let e1 := if st.stop_callback then
      { eff with callback_runs := eff.callback_runs + 1 } else eff
  let e2 := match st.filesync with
    | some true => { e1 with filesync_cancels := e1.filesync_cancels + 1 }
    | _ => e1
  let e3 := if stop_pod then
      { e2 with remote_stop_calls := e2.remote_stop_calls + 1 } else e2
  (st, e3)

/-! ## Pod-side sandbox (`script_base.py`, class `Instance`) -/

/-- A Python dictionary with string keys, embedded as a partial map. -/
def PyDict (V : Type) := String → Option V

/-- The empty dictionary. -/
def emptyDict {V : Type} : PyDict V := fun _ => none

/-- `d.update(e)`: keys of `e` overwrite, keys only in `d` survive. -/
def dictUpdate {V : Type} (d e : PyDict V) : PyDict V :=
  fun k =>
    match e k with
    | some v => some v
    | none => d k

/-- The pod-side `Instance` state: `self.scopes`, mapping a scope name to
the bindings saved for it (script_base.py line 8). -/
structure Instance (V : Type) where
  scopes : PyDict (PyDict V)

/-- The environment `Instance.execute` seeds the user code with
(script_base.py lines 12-14):
```
inputs = inputs or {}
if scope:
    inputs.update(self.scopes.get(scope, {}))
```
`inputs` is `none` for `None`; `if scope:` is false for `None` and for
the empty string.  Note the update direction: the SAVED bindings are
written over `inputs`. -/
def seedEnv {V : Type} (inst : Instance V) (inputs : Option (PyDict V))
    (scope : Option String) : PyDict V :=
  let inp := match inputs with
    | none => emptyDict
    | some i => i
  match scope with
  | some s => if s = "" then inp else dictUpdate inp ((inst.scopes s).getD emptyDict)
  | none => inp

/-- The filter `_var[0] == '_'` from the generated suffix: whether the
first character of a variable name is an underscore (Python identifiers
are nonempty, so the empty-string case is unreachable). -/
def headIsUnderscore (k : String) : Bool :=
  match k.data with
  | [] => false
  | c :: _ => c == '_'

/-- The per-variable effect of the generated suffix (script_base.py
lines 18-21)
```
for _var in dir():
    if _var[0] != '_':
        _new[_var] = eval(_var)
```
on the wrapper's locals: copy a local into `_new` exactly when its name
does not start with an underscore. -/
def suffixFilter {V : Type} (localVars : PyDict V) : PyDict V :=
  fun k => if headIsUnderscore k then none else localVars k

/-- Number of required parameters of the generated wrapper, from the
prefix at script_base.py line 15:
`async def _wrapper(_new, _print_callback):`. -/
def wrapperParamCount : Nat := 2

/-- Number of arguments the call at script_base.py line 24 passes:
`await inputs['_wrapper'](new_vars)`. -/
def wrapperCallArgCount : Nat := 1

/-- What one call of `Instance.execute` leaves behind. -/
structure ExecOutcome (V : Type) where
  envDict : PyDict V
  inst1 : Instance V
  result : Except String (PyDict V)

/-- `Instance.execute` (script_base.py lines 11-29).  Lines 12-14 update
the caller's `inputs` dict in place into the seeded environment
(`seedEnv`, so that mutation stays visible to the caller as `envDict`);
line 22 `exec`s the generated source, defining
`_wrapper(_new, _print_callback)` — TWO required parameters — inside
`inputs`; line 24 then calls `inputs['_wrapper'](new_vars)` with ONE
argument, so Python raises `TypeError` there on EVERY call, before any of
the user code runs.  Only in the hypothetical matching-arity case would
the wrapper run the user `code` (embedded as the function from the seeded
globals to the locals the body leaves behind — Python identifiers, hence
nonempty names), filter them through the suffix and persist them via
`self.scopes[scope] = new_vars` (line 27); in the source as written that
branch is dead: nothing is returned and `scopes` is unchanged. -/
def execute {V : Type} (inst : Instance V) (code : PyDict V → PyDict V)
    (inputs : Option (PyDict V)) (scope : Option String) : ExecOutcome V :=
  let env := seedEnv inst inputs scope
  if wrapperCallArgCount = wrapperParamCount then
    let new_vars := suffixFilter (code env)
    let scopes1 : PyDict (PyDict V) :=
      match scope with
      | some s =>
        if s = "" then inst.scopes
        else fun q => if q = s then some new_vars else inst.scopes q
      | none => inst.scopes
    { envDict := env, inst1 := ⟨scopes1⟩, result := Except.ok new_vars }
  else
    { envDict := env, inst1 := inst, result := Except.error "TypeError" }

/-! ## Claims C4, C6, C7, C8 -/

/-- C4: the claim says a failure raised while querying the runtime during
a reconciliation tick does not terminate the loop.  The code has its
`try`/`except` commented out, so the first failing tick terminates the
loop: ticks after the failure are never processed.  This theorem
evaluates the embedded loop on a failing first tick followed by a healthy
one and shows the loop dies instead of retrying. -/
theorem loop_check_running_uncontained :
    loop_check_running [Except.error (), Except.ok ()] = Except.error () ∧
    loop_check_running [Except.ok (), Except.ok ()] = Except.ok 2 := by
  constructor <;> rfl

/-- C6: the claim says `stop` on an account/pod pair absent from the
Lease Table raises no error and reports "not found".  The code calls
`dict.pop(pod_id)` without a default, which raises `KeyError`; the
"not found" branch is unreachable.  Evaluating the embedded `stop` on an
empty lease table yields the error. -/
theorem manager_stop_missing_lease_raises :
    manager_stop ⟨fun _ => [], fun _ => []⟩ "acct" "pod1" true =
      Except.error () := by
  rfl

/-- C7 counterexample: the claim says the Pool Registry key is a function
of the base and the dependency SET.  The two lists below hold the same
set of dependencies in different orders, yet their image tags differ —
the code joins the pip names in list order with no canonical sorting. -/
theorem image_tag_same_set_different_key :
    ([Dep.str "numpy", Dep.str "scipy"] : List Dep).Perm
      [Dep.str "scipy", Dep.str "numpy"] ∧
    image_tag "python" [Dep.str "numpy", Dep.str "scipy"] ≠
      image_tag "python" [Dep.str "scipy", Dep.str "numpy"] := by
  constructor
  · exact List.Perm.swap _ _ _
  · decide

/-- C7 amended: the Pool Registry key is a deterministic function of the
base and the ORDERED sequence of pip names of the dependency list — two
dependency lists whose pip-name projections agree element-wise yield the
same key (a permutation of the set may yield a different key). -/
theorem image_tag_deterministic_in_order (base : String) (d1 d2 : List Dep)
    (h : d1.map depPip = d2.map depPip) :
    image_tag base d1 = image_tag base d2 := by
  unfold image_tag
  rw [h]

/-- Witness for `image_tag_deterministic_in_order` at a concrete input: a
`(pip, import)` pair and a plain string with the same pip name produce
the same tag. -/
theorem image_tag_deterministic_in_order_witness :
    image_tag "python" [Dep.pair "numpy" "np"] =
      image_tag "python" [Dep.str "numpy"] :=
  image_tag_deterministic_in_order "python" [Dep.pair "numpy" "np"]
    [Dep.str "numpy"] (by decide)

/-- C8: the claim says the delayed background task provisions one more
pod for the same fingerprint and removes itself from the pending-task set
whether it succeeds or fails.  The code calls
`self.provision(1, base, pkg_dependencies, base, cpus, memory, gpu, upgrade)`
— eight positional arguments for a seven-parameter method — so the task
raises `TypeError` when it runs: no pod is provisioned, and since the
`pop` is not in a `finally`, the task is never removed from
`self.tasks['delayed_provisioning']`. -/
theorem delayed_provisioning_raises_type_error :
    delayed_provisioning [0] 0
        (delayedProvisionArgs [Dep.str "numpy"] "python" 1 2000 false false) =
      Except.error "TypeError" ∧
    (delayedProvisionArgs [Dep.str "numpy"] "python" 1 2000 false false).length ≠
      provisionParamCount := by
  constructor
  · rfl
  · decide

/-! ## Claims C1, C3, C5 -/

/-- C1: timer wake algorithm.  For a handle with a configured timeout:
if the deadline is unset (0) or still in the future, the wake re-arms for
`max 2 (deadline - now)` seconds without stopping the pod; if the
deadline has passed and CPU utilization is at least 1%, the pod is not
stopped and a new timer is armed for at least 2 seconds; if the deadline
has passed and CPU utilization is below 1%, the stop path is invoked with
`stop_pod = true`. -/
theorem autostop_wake_behavior (st : PodWrapper) (now cpu timeout : ℚ)
    (ht : st.autostop_timeout = some timeout) :
    ((st.autostop_time = 0 ∨ now < st.autostop_time) →
        autostop_wake st now cpu =
          some (AutostopAct.rearm (max 2 (st.autostop_time - now)))) ∧
    (st.autostop_time ≠ 0 → st.autostop_time < now → 1 ≤ cpu →
        ∃ d, 2 ≤ d ∧ autostop_wake st now cpu = some (AutostopAct.rearm d)) ∧
    (st.autostop_time ≠ 0 → st.autostop_time < now → cpu < 1 →
        autostop_wake st now cpu = some (AutostopAct.stop true)) := by
  refine ⟨?_, ?_, ?_⟩
  · intro h
    have hcond : ¬ (st.autostop_time ≠ 0 ∧ st.autostop_time < now) := by
      rcases h with h | h
      · rintro ⟨h0, _⟩
        exact h0 h
      · rintro ⟨_, hlt⟩
        exact absurd hlt (not_lt.mpr h.le)
    unfold autostop_wake
    rw [if_neg hcond]
  · intro h0 hlt hcpu
    refine ⟨max 2 timeout, le_max_left _ _, ?_⟩
    unfold autostop_wake
    rw [if_pos ⟨h0, hlt⟩, if_neg (not_lt.mpr hcpu), ht]
  · intro h0 hlt hcpu
    unfold autostop_wake
    rw [if_pos ⟨h0, hlt⟩, if_pos hcpu]

/-- A concrete leased handle: timeout 10, deadline 5, one outstanding
timer task. -/
def podW1 : PodWrapper :=
  { container_id := "c1", stop_callback := true, autostop_timeout := some 10,
    autostop_time := 5, autostop_task := some 0, spawned := 1,
    filesync := none }

/-- Witness for `autostop_wake_behavior`: waking `podW1` at time 7 with a
0% CPU reading (deadline 5 has passed, utilization below 1%) invokes the
stop path with `stop_pod = true`. -/
theorem autostop_wake_behavior_witness :
    autostop_wake podW1 7 0 = some (AutostopAct.stop true) :=
  (autostop_wake_behavior podW1 7 0 10 rfl).2.2 (by norm_num [podW1])
    (by norm_num [podW1]) (by norm_num)

/-- C3: single-flight timer.  With a configured timeout and an
outstanding timer task, any nonempty burst of `reset_timeout` calls
leaves the very same single task recorded and spawns no additional task
(the ghost spawn counter is unchanged), and the deadline equals the time
of the latest call plus the timeout; with no timeout configured,
`reset_timeout` is a no-op. -/
theorem reset_timeout_single_flight :
    (∀ (st : PodWrapper) (timeout : ℚ) (tid : Nat) (times : List ℚ)
        (h : times ≠ []),
        st.autostop_timeout = some timeout → st.autostop_task = some tid →
        (times.foldl reset_timeout st).autostop_task = some tid ∧
        (times.foldl reset_timeout st).spawned = st.spawned ∧
        (times.foldl reset_timeout st).autostop_time =
          times.getLast h + timeout) ∧
    (∀ (st : PodWrapper) (now : ℚ),
        st.autostop_timeout = none → reset_timeout st now = st) := by
  constructor
  · intro st timeout tid times
    induction times generalizing st with
    | nil => intro h; exact absurd rfl h
    | cons t ts ih =>
      intro h ht htask
      have hstep : reset_timeout st t = { st with autostop_time := t + timeout } := by
        simp [reset_timeout, ht, htask]
      cases ts with
      | nil => simp [hstep, htask]
      | cons u us =>
        have h2 : (u :: us) ≠ [] := by simp
        have hrec := ih { st with autostop_time := t + timeout } h2 ht htask
        simpa [hstep, List.getLast_cons h2] using hrec
  · intro st now ht
    simp [reset_timeout, ht]

/-- Witness for `reset_timeout_single_flight`: two keep-alive calls at
times 1 and 2 on `podW1` (timeout 10, task 0 outstanding) leave task 0 as
the only task ever spawned and set the deadline to 12. -/
theorem reset_timeout_single_flight_witness :
    (([1, 2] : List ℚ).foldl reset_timeout podW1).autostop_task = some 0 ∧
    (([1, 2] : List ℚ).foldl reset_timeout podW1).spawned = 1 ∧
    (([1, 2] : List ℚ).foldl reset_timeout podW1).autostop_time = 12 := by
  have h := reset_timeout_single_flight.1 podW1 10 0 [1, 2] (by simp) rfl rfl
  refine ⟨h.1, ?_, ?_⟩
  · rw [h.2.1]; rfl
  · rw [h.2.2]; norm_num

/-- A concrete handle with a stop callback installed and a live file-sync
task. -/
def podW0 : PodWrapper :=
  { container_id := "c0", stop_callback := true, autostop_timeout := none,
    autostop_time := 0, autostop_task := none, spawned := 0,
    filesync := some true }

/-- C5 counterexample: the claim says two invocations of the stop path
run the stop callback and the file-sync cancellation at most once each.
`PodWrapper.stop` keeps no guard and clears neither `stop_callback` nor
`filesync`, so invoking it twice on `podW0` runs the callback twice and
the file-sync cancellation twice. -/
theorem pod_stop_twice_double_charges :
    ((pod_stop (pod_stop podW0 true ⟨0, 0, 0⟩).1 true
        (pod_stop podW0 true ⟨0, 0, 0⟩).2).2.callback_runs = 2 ∧
     (pod_stop (pod_stop podW0 true ⟨0, 0, 0⟩).1 true
        (pod_stop podW0 true ⟨0, 0, 0⟩).2).2.filesync_cancels = 2) ∧
    ¬ ((pod_stop (pod_stop podW0 true ⟨0, 0, 0⟩).1 true
        (pod_stop podW0 true ⟨0, 0, 0⟩).2).2.callback_runs ≤ 1) := by
  decide

/-- C5 amended: each invocation of the stop path runs the stop callback
and the file-sync cancellation once more (when both are installed) — the
second invocation repeats them instead of being a no-op, because the
handle state is left unchanged by `stop`. -/
theorem pod_stop_runs_hooks_each_invocation (st : PodWrapper)
    (eff : TeardownEffects) (sp1 sp2 : Bool)
    (hcb : st.stop_callback = true) (hfs : st.filesync = some true) :
    (pod_stop st sp1 eff).1 = st ∧
    (pod_stop (pod_stop st sp1 eff).1 sp2 (pod_stop st sp1 eff).2).2.callback_runs
      = eff.callback_runs + 2 ∧
    (pod_stop (pod_stop st sp1 eff).1 sp2 (pod_stop st sp1 eff).2).2.filesync_cancels
      = eff.filesync_cancels + 2 := by
  cases sp1 <;> cases sp2 <;> simp [pod_stop, hcb, hfs]

/-- Witness for `pod_stop_runs_hooks_each_invocation` at `podW0` with
zeroed effect counters. -/
theorem pod_stop_runs_hooks_each_invocation_witness :
    (pod_stop podW0 true ⟨0, 0, 0⟩).1 = podW0 ∧
    (pod_stop (pod_stop podW0 true ⟨0, 0, 0⟩).1 true
        (pod_stop podW0 true ⟨0, 0, 0⟩).2).2.callback_runs = 0 + 2 ∧
    (pod_stop (pod_stop podW0 true ⟨0, 0, 0⟩).1 true
        (pod_stop podW0 true ⟨0, 0, 0⟩).2).2.filesync_cancels = 0 + 2 :=
  pod_stop_runs_hooks_each_invocation podW0 ⟨0, 0, 0⟩ true true rfl rfl

/-! ## Claims C9, C10 -/

/-- Saved bindings for scope `"sc"`: `x = 2`. -/
def saved9 : PyDict Nat := fun k => if k = "x" then some 2 else none

/-- An `Instance` whose `scopes` dictionary maps `"sc"` to `saved9`. -/
def inst9 : Instance Nat := ⟨fun s => if s = "sc" then some saved9 else none⟩

/-- The effect of the user code `x = x`: it assigns the seeded global
`x` to a local `x`. -/
def code9 : PyDict Nat → PyDict Nat :=
  fun env => fun k => if k = "x" then env "x" else none

/-- Call inputs: `x = 1`. -/
def inputs9 : PyDict Nat := fun k => if k = "x" then some 1 else none

/-- C9 counterexample: the claim says that when a name appears both in
`inputs` and in the saved scope bindings, the value from `inputs` takes
precedence, and that the resulting bindings are persisted.  The code
first runs `inputs.update(self.scopes.get(scope, {}))`, which writes the
SAVED bindings over `inputs` — with input `x = 1` and saved `x = 2` the
caller-visible environment dict holds `x = 2`, not `x = 1` — and then
raises `TypeError` at the one-argument `_wrapper` call, so nothing is
ever returned or persisted. -/
theorem execute_inputs_lose_to_saved :
    (execute inst9 code9 (some inputs9) (some "sc")).envDict "x" = some 2 ∧
    (execute inst9 code9 (some inputs9) (some "sc")).envDict "x" ≠ some 1 ∧
    (execute inst9 code9 (some inputs9) (some "sc")).result =
      Except.error "TypeError" := by
    refine ⟨rfl, ?_, rfl⟩
    decide

/-- C9 amended: for every call with previously saved bindings under the
scope, lines 12-14 seed the caller-visible environment dict with the
SAVED bindings merged over `inputs` — on a name collision the saved value
takes precedence — and the call then always raises `TypeError` (the
generated two-parameter `_wrapper` is invoked with a single argument), so
no bindings are returned and the scope state is left unchanged: nothing
is persisted. -/
theorem execute_seed_saved_wins_then_type_error {V : Type}
    (inst : Instance V) (code : PyDict V → PyDict V) (inputs : PyDict V)
    (s : String) (saved : PyDict V) (k : String)
    (hs : s ≠ "") (hsv : inst.scopes s = some saved) :
    ((execute inst code (some inputs) (some s)).envDict k =
       match saved k with
       | some v => some v
       | none => inputs k) ∧
    (execute inst code (some inputs) (some s)).result =
      Except.error "TypeError" ∧
    (execute inst code (some inputs) (some s)).inst1 = inst := by
  refine ⟨?_, ?_, ?_⟩
  · simp [execute, wrapperCallArgCount, wrapperParamCount, seedEnv, hs, hsv,
      dictUpdate]
  · simp [execute, wrapperCallArgCount, wrapperParamCount]
  · simp [execute, wrapperCallArgCount, wrapperParamCount]

/-- Witness for `execute_seed_saved_wins_then_type_error` at the concrete
scope `"sc"`, key `"x"`, inputs `x = 1`, saved `x = 2`. -/
theorem execute_seed_saved_wins_then_type_error_witness :
    ((execute inst9 code9 (some inputs9) (some "sc")).envDict "x" =
       match saved9 "x" with
       | some v => some v
       | none => inputs9 "x") ∧
    (execute inst9 code9 (some inputs9) (some "sc")).result =
      Except.error "TypeError" ∧
    (execute inst9 code9 (some inputs9) (some "sc")).inst1 = inst9 :=
  execute_seed_saved_wins_then_type_error inst9 code9 inputs9 "sc" saved9
    "x" (by decide) rfl

/-- C10: the claim says the returned `new_bindings` and the persisted
scope state contain only names that do not begin with an underscore.
That is exactly what the generated suffix (lines 19-21) and the
`self.scopes[scope] = new_vars` persistence (line 27) would produce — the
embedded `suffixFilter` drops the underscore key `"_y"` and keeps `"x"` —
but the call at line 24 passes one argument to the two-parameter
`_wrapper`, so every call raises `TypeError` first: no `new_bindings` are
ever returned and the scopes table is unchanged.  This theorem evaluates
the embedded `execute` at the failing input and the suffix filter at the
bindings the dead code would have produced. -/
theorem execute_type_error_before_any_bindings :
    (execute inst9 code9 (some inputs9) (some "sc")).result =
      Except.error "TypeError" ∧
    (execute inst9 code9 (some inputs9) (some "sc")).inst1 = inst9 ∧
    suffixFilter (code9 (seedEnv inst9 (some inputs9) (some "sc"))) "_y" =
      none ∧
    suffixFilter (code9 (seedEnv inst9 (some inputs9) (some "sc"))) "x" =
      some 2 ∧
    wrapperCallArgCount ≠ wrapperParamCount := by
  refine ⟨rfl, rfl, rfl, rfl, ?_⟩
  decide

/-! ## Claim C2 -/

theorem fset_same (m : String → List String) (k : String) (v : List String) :
    fset m k v k = v := by
  simp [fset]

theorem fset_other {m : String → List String} {k q : String}
    {v : List String} (h : q ≠ k) : fset m k v q = m q := by
  simp [fset, h]

/-- Provisioning fresh pod ids (none of which is anywhere in the state)
preserves the at-most-one-location invariant. -/
theorem provision_core_locinv (st : ManagerState) (tag : String)
    (fresh : List String) (hInv : LocInv st) (hnd : fresh.Nodup)
    (hfr : ∀ i ∈ fresh, (∀ t, i ∉ st.ready t) ∧ (∀ a, i ∉ st.running a)) :
    LocInv (provision_core st tag fresh) := by
  obtain ⟨h1, h2, h3, h4, h5⟩ := hInv
  have hready : ∀ t, (provision_core st tag fresh).ready t =
      if t = tag then st.ready tag ++ fresh else st.ready t := by
    intro t
    by_cases ht : t = tag
    · rw [if_pos ht, ht]
      exact fset_same _ _ _
    · rw [if_neg ht]
      exact fset_other ht
  have hmem : ∀ i t, i ∈ (provision_core st tag fresh).ready t →
      i ∈ st.ready t ∨ (t = tag ∧ i ∈ fresh) := by
    intro i t hi
    rw [hready t] at hi
    by_cases ht : t = tag
    · rw [if_pos ht] at hi
      rcases List.mem_append.mp hi with hi | hi
      · left
        rw [ht]
        exact hi
      · right
        exact ⟨ht, hi⟩
    · rw [if_neg ht] at hi
      left
      exact hi
  refine ⟨?_, h2, ?_, ?_, h5⟩
  · intro t
    rw [hready t]
    by_cases ht : t = tag
    · rw [if_pos ht]
      refine List.nodup_append.mpr ⟨h1 tag, hnd, ?_⟩
      intro i hi hif
      exact (hfr i hif).1 tag hi
    · rw [if_neg ht]
      exact h1 t
  · intro i t a hi hl
    rcases hmem i t hi with hi | ⟨ht, hi⟩
    · exact h3 i t a hi hl
    · exact (hfr i hi).2 a hl
  · intro i t u hi hu
    rcases hmem i t hi with hi1 | ⟨ht, hi1⟩
    · rcases hmem i u hu with hu1 | ⟨hu2, hu1⟩
      · exact h4 i t u hi1 hu1
      · exact absurd hi1 ((hfr i hu1).1 t)
    · rcases hmem i u hu with hu1 | ⟨hu2, hu1⟩
      · exact absurd hu1 ((hfr i hi1).1 u)
      · rw [ht, hu2]

/-- The pop-and-lease step: the popped id ends up leased to exactly the
requesting account, is gone from every ready queue, and the invariant is
preserved. -/
theorem get_pod_pop_loc (st1 : ManagerState) (tag account pid : String)
    (st2 : ManagerState) (hInv : LocInv st1)
    (h : get_pod_pop st1 tag account = some (pid, st2)) :
    pid ∈ st2.running account ∧ (∀ t, pid ∉ st2.ready t) ∧
    (∀ a, pid ∈ st2.running a → a = account) ∧ LocInv st2 := by
  obtain ⟨h1, h2, h3, h4, h5⟩ := hInv
  unfold get_pod_pop at h
  cases hlast : (st1.ready tag).getLast? with
  | none =>
    rw [hlast] at h
    exact absurd h (by simp)
  | some q =>
    rw [hlast] at h
    simp only [Option.some.injEq, Prod.mk.injEq] at h
    obtain ⟨hq, hst⟩ := h
    subst q
    have hdecomp : (st1.ready tag).dropLast ++ [pid] = st1.ready tag :=
      List.dropLast_append_getLast? pid (Option.mem_def.mpr hlast)
    have hmemready : pid ∈ st1.ready tag := by
      rw [← hdecomp]
      exact List.mem_append_right _ (List.mem_singleton_self pid)
    have hnotdrop : pid ∉ (st1.ready tag).dropLast := by
      intro hx
      have hnd := h1 tag
      rw [← hdecomp] at hnd
      exact (List.disjoint_of_nodup_append hnd) hx (List.mem_singleton_self pid)
    have hnotlease : pid ∉ st1.running account := h3 pid tag account hmemready
    have hif : (if pid ∈ st1.running account then st1.running account
        else st1.running account ++ [pid]) = st1.running account ++ [pid] :=
      if_neg hnotlease
    have hr2 : st2.ready = fset st1.ready tag (st1.ready tag).dropLast := by
      rw [← hst]
    have hl2 : st2.running = fset st1.running account
        (if pid ∈ st1.running account then st1.running account
         else st1.running account ++ [pid]) := by
      rw [← hst]
    have hsubr : ∀ i t, i ∈ st2.ready t → i ∈ st1.ready t := by
      intro i t hi
      rw [hr2] at hi
      by_cases ht : t = tag
      · rw [ht, fset_same] at hi
        rw [ht]
        exact List.dropLast_subset _ hi
      · rwa [fset_other ht] at hi
    have hready2 : ∀ t, pid ∉ st2.ready t := by
      intro t hx
      rw [hr2] at hx
      by_cases ht : t = tag
      · rw [ht, fset_same] at hx
        exact hnotdrop hx
      · rw [fset_other ht] at hx
        exact ht (h4 pid t tag hx hmemready)
    refine ⟨?_, hready2, ?_, ?_, ?_, ?_, ?_, ?_⟩
    · rw [hl2, fset_same, hif]
      exact List.mem_append_right _ (List.mem_singleton_self pid)
    · intro a hx
      by_cases ha : a = account
      · exact ha
      · rw [hl2, fset_other ha] at hx
        exact absurd hx (h3 pid tag a hmemready)
    · intro t
      rw [hr2]
      by_cases ht : t = tag
      · rw [ht, fset_same]
        exact (h1 tag).sublist (List.dropLast_sublist _)
      · rw [fset_other ht]
        exact h1 t
    · intro a
      rw [hl2]
      by_cases ha : a = account
      · rw [ha, fset_same, hif]
        refine List.nodup_append.mpr ⟨h2 account, List.nodup_singleton pid, ?_⟩
        intro i hi hip
        rw [List.mem_singleton] at hip
        subst hip
        exact hnotlease hi
      · rw [fset_other ha]
        exact h2 a
    · intro i t a hi hl
      have hi1 : i ∈ st1.ready t := hsubr i t hi
      rw [hl2] at hl
      by_cases ha : a = account
      · rw [ha, fset_same, hif] at hl
        rcases List.mem_append.mp hl with hl | hl
        · exact h3 i t account hi1 hl
        · rw [List.mem_singleton] at hl
          subst hl
          exact hready2 t hi
      · rw [fset_other ha] at hl
        exact h3 i t a hi1 hl
    · intro i t u hi hu
      exact h4 i t u (hsubr i t hi) (hsubr i u hu)
    · intro i a b hia hib
      rw [hl2] at hia hib
      by_cases ha : a = account <;> by_cases hb : b = account
      · rw [ha, hb]
      · rw [ha, fset_same, hif] at hia
        rw [fset_other hb] at hib
        rcases List.mem_append.mp hia with hia | hia
        · rw [ha]
          exact h5 i account b hia hib
        · rw [List.mem_singleton] at hia
          rw [hia] at hib
          exact absurd hib (h3 pid tag b hmemready)
      · rw [hb, fset_same, hif] at hib
        rw [fset_other ha] at hia
        rcases List.mem_append.mp hib with hib | hib
        · rw [hb]
          exact h5 i a account hia hib
        · rw [List.mem_singleton] at hib
          rw [hib] at hia
          exact absurd hia (h3 pid tag a hmemready)
      · rw [fset_other ha] at hia
        rw [fset_other hb] at hib
        exact h5 i a b hia hib

/-- C2: at-most-one-location.  From a well-formed state (and fresh ids
for any synchronous provisioning), every Pod Handle id returned by
`get_pod` is recorded in the requesting account's lease set, is absent
from every fingerprint's ready queue (in particular the requested one),
is leased to no other account, and the resulting state again satisfies
the at-most-one-location invariant — the handle is in exactly one
location, never both, never neither. -/
theorem get_pod_at_most_one_location (st : ManagerState)
    (tag account : String) (fresh : List String) (pid : String)
    (st2 : ManagerState) (hInv : LocInv st) (hnd : fresh.Nodup)
    (hfr : ∀ i ∈ fresh, (∀ t, i ∉ st.ready t) ∧ (∀ a, i ∉ st.running a))
    (h : get_pod st tag account fresh = some (pid, st2)) :
    pid ∈ st2.running account ∧ (∀ t, pid ∉ st2.ready t) ∧
    (∀ a, pid ∈ st2.running a → a = account) ∧ LocInv st2 := by
  unfold get_pod at h
  by_cases he : st.ready tag = []
  · rw [if_pos he] at h
    exact get_pod_pop_loc _ tag account pid st2
      (provision_core_locinv st tag fresh hInv hnd hfr) h
  · rw [if_neg he] at h
    exact get_pod_pop_loc st tag account pid st2 hInv h

/-- A concrete manager state: one ready pod `"p1"` under the tag
`"tk-python-numpy"`, no leases. -/
def mgr0 : ManagerState :=
  { ready := fun t => if t = "tk-python-numpy" then ["p1"] else [],
    running := fun _ => [] }

/-- The state after `get_pod` leases `"p1"` to `"acct"`. -/
def mgr1 : ManagerState :=
  { ready := fset mgr0.ready "tk-python-numpy" [],
    running := fset mgr0.running "acct" ["p1"] }

/-- Witness for `get_pod_at_most_one_location`: leasing `"p1"` out of
`mgr0` puts it in the `"acct"` lease set only. -/
theorem get_pod_at_most_one_location_witness :
    "p1" ∈ mgr1.running "acct" ∧ (∀ t, "p1" ∉ mgr1.ready t) ∧
    (∀ a, "p1" ∈ mgr1.running a → a = "acct") ∧ LocInv mgr1 :=
  get_pod_at_most_one_location mgr0 "tk-python-numpy" "acct" [] "p1" mgr1
    (by
      refine ⟨?_, ?_, ?_, ?_, ?_⟩
      · intro t
        by_cases h : t = "tk-python-numpy" <;> simp [mgr0, h]
      · intro a
        simp [mgr0]
      · intro i t a hr hl
        simp [mgr0] at hl
      · intro i t u hi hu
        by_cases ht : t = "tk-python-numpy"
        · by_cases hu1 : u = "tk-python-numpy"
          · rw [ht, hu1]
          · simp [mgr0, hu1] at hu
        · simp [mgr0, ht] at hi
      · intro i a b h1 h2
        simp [mgr0] at h1)
    List.nodup_nil (by simp) rfl
